import Mathlib

/-!
Verification development for the HomeHarvest repository.

The repository consists of `examples/fetch_all_states.py` — a batch script
that, for every requested US state, fetches property listings per listing
type through an external scraping primitive, concatenates the non-empty
results, truncates to a row cap, selects and renames a fixed set of columns,
and writes one CSV/Excel file per state — and
`homeharvest/core/scrapers/realtor/queries.py`, a module of static GraphQL
query strings built by Python percent-formatting.

This file shallowly embeds those two source files:
  * pandas DataFrames become `DataFrame` (a column-name list plus rows of
    optional cells; `none` models NaN);
  * the external `scrape_property` call becomes an oracle
    `Fetch` supplied as a parameter, which may return a table or raise
    (`Except.error`);
  * the observable side effects (fetch attempts, log lines, console output,
    file writes) become an explicit event trace `Ev`;
  * the filesystem becomes an association list from path to file data.
-/

namespace HomeHarvest

/-! ## Data model: DataFrame -/

/-- A tabular result: ordered column names and rows of cells aligned with
the columns; `none` is a missing value (NaN). -/
structure DataFrame where
  cols : List String
  rows : List (List (Option String))
deriving Repr, DecidableEq

/-- `len(df)` in pandas: the number of rows. -/
def DataFrame.len (df : DataFrame) : Nat := df.rows.length

/-- Look up the cell of a row under a column name: the columns and the
row's cells are walked in parallel, and the first column equal to the key
gives the cell (missing column gives `none`, as pandas reindexing fills NaN). -/
def cellAt : List String → List (Option String) → String → Option String
  | c :: cs, v :: vs, k => if c = k then v else cellAt cs vs k
  | _, _, _ => none

/-- Re-align a row from an old column list to a new one, filling `none`
for columns absent from the old list. -/
def reindexRow (oldCols newCols : List String) (row : List (Option String)) :
    List (Option String) :=
  newCols.map (fun c => cellAt oldCols row c)

/-- Append the columns of `l` not already present in `acc` (first-appearance
order, as `pd.concat` computes the union of columns). -/
def addCols (acc l : List String) : List String :=
  acc ++ l.filter (fun c => !(acc.contains c))

/-- Union of the column lists in first-appearance order. -/
def unionCols (ls : List (List String)) : List String := ls.foldl addCols []

/-- `pd.concat(chunks, ignore_index=True)`: the columns are the
first-appearance union, and the rows of each chunk, re-aligned to the
union, follow each other in chunk order. -/
def concatDF (dfs : List DataFrame) : DataFrame :=
  let cols := unionCols (dfs.map (·.cols))
  { cols := cols
    rows := (dfs.map (fun d => d.rows.map (reindexRow d.cols cols))).flatten }

/-- `df.head(n)`: the first `n` rows. -/
def DataFrame.head (df : DataFrame) (n : Nat) : DataFrame :=
  { df with rows := df.rows.take n }

/-- `df[cs]`: column selection, re-aligning every row to `cs`. -/
def selectCols (df : DataFrame) (cs : List String) : DataFrame :=
  { cols := cs, rows := df.rows.map (reindexRow df.cols cs) }

/-- Dictionary lookup in an association list (first binding wins, as a
Python dict built without duplicate keys). -/
def lookupMap (m : List (String × String)) (k : String) : Option String :=
  (m.find? (fun p => p.1 = k)).map (·.2)

/-- The dict comprehension restricting a mapping to the given keys. -/
def restrictMap (m : List (String × String)) (ks : List String) :
    List (String × String) :=
  m.filter (fun p => ks.contains p.1)

/-- `df.rename(columns=m)`: every column present as a key of `m` is
replaced by its value; others are kept. -/
def renameCols (m : List (String × String)) (df : DataFrame) : DataFrame :=
  { df with cols := df.cols.map (fun c => (lookupMap m c).getD c) }

/-- A row viewed as a function from column names to cells; used to state
row-order preservation across re-alignment. -/
def rowFuns (d : DataFrame) : List (String → Option String) :=
  d.rows.map (fun r => fun c => cellAt d.cols r c)

/-! ## Observable events and environment -/

/-- One observable side effect of the script. -/
inductive Ev
  | fetchCall (state lt : String)
  | logError (msg : String)
  | logInfo (msg : String)
  | consoleOut (msg : String)
  | fileWrite (path : String) (df : DataFrame)
deriving Repr, DecidableEq

/-- The external `scrape_property` primitive, as a black box:
location, listing type, date_from, date_to and limit go in; a table comes
out, or an exception (`Except.error`) is raised. -/
def Fetch : Type := String → String → String → String → Nat → Except String DataFrame

/-- File contents: either a written table or arbitrary raw bytes
(a pre-existing, possibly empty or unrelated, file). -/
inductive FileData
  | table (df : DataFrame)
  | raw (s : String)
deriving Repr, DecidableEq

/-- The filesystem: an association list from path to contents. -/
def FS : Type := List (String × FileData)

/-- `os.path.exists`. -/
def pathExists (fs : FS) (p : String) : Bool :=
  List.any fs (fun q => q.1 = p)

/-- Read a path's contents, if present. -/
def fsLookup (fs : FS) (p : String) : Option FileData :=
  (List.find? (fun q => q.1 = p) fs).map (·.2)

/-- Write (create or overwrite) a path. -/
def fsWrite (fs : FS) (p : String) (d : FileData) : FS :=
  (p, d) :: List.filter (fun q => !(q.1 = p : Bool)) fs

/-! ## The script `examples/fetch_all_states.py` -/

/-- Output format chosen on the CLI: `csv` or `excel`. -/
inductive OutputFormat
  | csv
  | excel
deriving Repr, DecidableEq

/-- One unit of work, the tuple built per state in `main`. -/
structure Task where
  state : String
  listing_types : List String
  start_date : String
  end_date : String
  max_rows : Nat
  output_dir : String
  output_format : OutputFormat
  overwrite : Bool
  columns_map : List (String × String)

/-- The `for listing_type in listing_types` loop body of
`fetch_state_custom`: each listing type is attempted once; a successful,
non-empty result is appended to the chunk list; an exception is logged and
the loop continues. Returns the collected chunks and the event trace. -/
def fetchLoop (fetch : Fetch) (state start_date end_date : String)
    (max_rows : Nat) : List String → List DataFrame × List Ev
  | [] => ([], [])
  | lt :: rest =>
    let step :=
      match fetch state lt start_date end_date max_rows with
      | Except.ok properties =>
        (if properties.len > 0 then [properties] else [], [Ev.fetchCall state lt])
      | Except.error e =>
        ([], [Ev.fetchCall state lt,
              Ev.logError ("Error fetching " ++ state ++ " " ++ lt ++ ": " ++ e)])
    let r := fetchLoop fetch state start_date end_date max_rows rest
    (step.1 ++ r.1, step.2 ++ r.2)

/-- `fetch_state_custom`: run the loop; if any chunk was collected,
concatenate them and truncate to `max_rows`, else return `None`. -/
def fetch_state_custom (fetch : Fetch) (state : String)
    (listing_types : List String) (start_date end_date : String)
    (max_rows : Nat) : Option DataFrame × List Ev :=
  let r := fetchLoop fetch state start_date end_date max_rows listing_types
  if r.1.isEmpty then (none, r.2)
  else (some ((concatDF r.1).head max_rows), r.2)

/-- The output path: `os.path.join(output_dir, f"{state}_properties.{ext}")`
with `ext` `xlsx` for excel and `csv` otherwise. -/
def mkFilename (output_dir state : String) (fmt : OutputFormat) : String :=
  output_dir ++ "/" ++ state ++ "_properties." ++
    (if fmt = OutputFormat.excel then "xlsx" else "csv")

/-- `process_state_cli`: skip when the target exists and overwrite is off;
otherwise fetch, and on data select the columns of `columns_map` present
in the result (in map order), rename them, write the file and log success;
on no data log "No data". Returns the new filesystem and the event trace. -/
def process_state_cli (fetch : Fetch) (fs : FS) (t : Task) : FS × List Ev :=
  let filename := mkFilename t.output_dir t.state t.output_format
  if pathExists fs filename && !t.overwrite then
    let m := "Skipping " ++ filename ++ ", already exists."
    (fs, [Ev.logInfo m, Ev.consoleOut m])
  else
    let r := fetch_state_custom fetch t.state t.listing_types t.start_date
      t.end_date t.max_rows
    match r.1 with
    | some df_state =>
      let available_cols :=
        (t.columns_map.map Prod.fst).filter (fun c => df_state.cols.contains c)
      let df_export :=
        renameCols (restrictMap t.columns_map available_cols)
          (selectCols df_state available_cols)
      let m := "Saved " ++ toString df_export.len ++ " properties for "
        ++ t.state ++ " to " ++ filename
      (fsWrite fs filename (FileData.table df_export),
       r.2 ++ [Ev.fileWrite filename df_export, Ev.logInfo m, Ev.consoleOut m])
    | none =>
      let m := "No data for " ++ t.state
      (fs, r.2 ++ [Ev.logInfo m, Ev.consoleOut m])

/-- The sequential branch of `main`: process the tasks in order, threading
the filesystem. -/
def runTasks (fetch : Fetch) (fs : FS) : List Task → FS × List Ev
  | [] => (fs, [])
  | t :: ts =>
    let r := process_state_cli fetch fs t
    let r2 := runTasks fetch r.1 ts
    (r2.1, r.2 ++ r2.2)

/-- The task is not skipped: the target is absent or overwrite is set. -/
def notSkipped (fs : FS) (t : Task) : Prop :=
  pathExists fs (mkFilename t.output_dir t.state t.output_format) = false
    ∨ t.overwrite = true

/-- The `columns_map` dictionary of `main`, in declaration order. -/
def columnsMapMain : List (String × String) :=
  [("list_price", "Listing Price"),
   ("photos", "Images"),
   ("virtual_tour_url", "Virtual Tour"),
   ("beds", "Bedrooms"),
   ("full_baths", "Full Baths"),
   ("half_baths", "Half Baths"),
   ("sqft", "Square Footage"),
   ("year_built", "Year Built"),
   ("lot_sqft", "Lot Size"),
   ("stories", "Stories"),
   ("price_per_sqft", "Price per Sqft"),
   ("estimated_value", "Estimated Market Value"),
   ("price_history", "Price History"),
   ("hoa_fee", "Monthly HOA Fee"),
   ("monthly_cost", "Monthly Cost Calculator"),
   ("estimated_monthly_payment", "Estimated Monthly Payments"),
   ("description", "What\x27s Special About This Property"),
   ("features", "Features & Upgrades"),
   ("special_features", "Unique Selling Points"),
   ("tour_3d_url", "3D Tour"),
   ("video_tour_url", "Video Tour"),
   ("agent_name", "Listed By"),
   ("mls_id", "MLS Number"),
   ("mls", "Originating MLS"),
   ("tax_history", "Public Tax History"),
   ("tax", "Tax Assessed Value"),
   ("property_type", "Property Type"),
   ("interior_features", "Interior Features"),
   ("exterior_features", "Exterior Features"),
   ("sale_history", "Sale History"),
   ("climate_risk", "Climate Risk"),
   ("commute", "Getting Around"),
   ("nearby_schools", "Nearby Schools"),
   ("nearby_cities", "Nearby Cities"),
   ("parks", "Parks & Recreation")]
/-- The GraphQL fragment `_SEARCH_HOMES_DATA_BASE` from queries.py, verbatim. -/
def _SEARCH_HOMES_DATA_BASE : String := "\x7b\n    pending_date\n    listing_id\n    property_id\n    href\n    list_date\n    status\n    last_sold_price\n    last_sold_date\n    list_price\n    list_price_max\n    list_price_min\n    price_per_sqft\n    tags\n    details \x7b\n        category\n        text\n        parent_category\n    \x7d\n    pet_policy \x7b\n        cats\n        dogs\n        dogs_small\n        dogs_large\n        __typename\n    \x7d\n    units \x7b\n        availability \x7b\n          date\n          __typename\n        \x7d\n        description \x7b\n          baths_consolidated\n          baths\n          beds\n          sqft\n          __typename\n        \x7d\n        photos(https: true) \x7b\n            title\n            href\n            tags \x7b\n                label\n            \x7d\n        \x7d\n        list_price\n        __typename\n    \x7d\n    flags \x7b\n        is_contingent\n        is_pending\n        is_new_construction\n    \x7d\n    description \x7b\n        type\n        sqft\n        beds\n        baths_full\n        baths_half\n        lot_sqft\n        year_built\n        garage\n        type\n        name\n        stories\n        text\n    \x7d\n    source \x7b\n        id\n        listing_id\n    \x7d\n    hoa \x7b\n        fee\n    \x7d\n    location \x7b\n        address \x7b\n            street_direction\n            street_number\n            street_name\n            street_suffix\n            line\n            unit\n            city\n            state_code\n            postal_code\n            coordinate \x7b\n                lon\n                lat\n            \x7d\n        \x7d\n        county \x7b\n            name\n            fips_code\n        \x7d\n        neighborhoods \x7b\n            name\n        \x7d\n    \x7d\n    tax_record \x7b\n        cl_id\n        public_record_id\n        last_update_date\n        apn\n        tax_parcel_id\n    \x7d\n    primary_photo(https: true) \x7b\n        href\n    \x7d\n    photos(https: true) \x7b\n        title\n        href\n        tags \x7b\n            label\n        \x7d\n    \x7d\n    advertisers \x7b\n        email\n        broker \x7b\n            name\n            fulfillment_id\n        \x7d\n        type\n        name\n        fulfillment_id\n        builder \x7b\n            name\n            fulfillment_id\n        \x7d\n        phones \x7b\n            ext\n            primary\n            type\n            number\n        \x7d\n        office \x7b\n            name\n            email\n            fulfillment_id\n            href\n            phones \x7b\n                number\n                type\n                primary\n                ext\n            \x7d\n            mls_set\n        \x7d\n        corporation \x7b\n            specialties\n            name\n            bio\n            href\n            fulfillment_id\n        \x7d\n        mls_set\n        nrds_id\n        rental_corporation \x7b\n            fulfillment_id\n        \x7d\n        rental_management \x7b\n            name\n            href\n            fulfillment_id\n        \x7d\n    \x7d\n    "

/-- The GraphQL fragment `HOME_FRAGMENT` from queries.py, verbatim. -/
def HOME_FRAGMENT : String := "\nfragment HomeData on Home \x7b\n    property_id\n    nearbySchools: nearby_schools(radius: 5.0, limit_per_level: 3) \x7b\n        __typename schools \x7b district \x7b __typename id name \x7d \x7d\n    \x7d\n    taxHistory: tax_history \x7b __typename tax year assessment \x7b __typename building land total \x7d \x7d\n    monthly_fees \x7b\n        description\n        display_amount\n    \x7d\n    one_time_fees \x7b\n        description\n        display_amount\n    \x7d\n    parking \x7b\n        unassigned_space_rent\n        assigned_spaces_available\n        description\n        assigned_space_rent\n    \x7d\n    terms \x7b\n        text\n        category\n    \x7d\n\x7d\n"

/-- Text of the `HOMES_DATA` template before its single percent-s slot. -/
def HOMES_DATA_PRE : String := ""
/-- Text of the `HOMES_DATA` template after its single percent-s slot. -/
def HOMES_DATA_POST : String := "\n                nearbySchools: nearby_schools(radius: 5.0, limit_per_level: 3) \x7b\n                            __typename schools \x7b district \x7b __typename id name \x7d \x7d\n                        \x7d\n                monthly_fees \x7b\n                    description\n                    display_amount\n                \x7d\n                one_time_fees \x7b\n                    description\n                    display_amount\n                \x7d\n                parking \x7b\n                    unassigned_space_rent\n                    assigned_spaces_available\n                    description\n                    assigned_space_rent\n                \x7d\n                terms \x7b\n                    text\n                    category\n                \x7d\n                taxHistory: tax_history \x7b __typename tax year assessment \x7b __typename building land total \x7d \x7d\n                estimates \x7b\n                    __typename\n                    currentValues: current_values \x7b\n                        __typename\n                        source \x7b __typename type name \x7d\n                        estimate\n                        estimateHigh: estimate_high\n                        estimateLow: estimate_low\n                        date\n                        isBestHomeValue: isbest_homevalue\n                    \x7d\n                \x7d\n\x7d"
/-- `HOMES_DATA`: the template with `_SEARCH_HOMES_DATA_BASE` formatted into the slot. -/
def HOMES_DATA : String := HOMES_DATA_PRE ++ _SEARCH_HOMES_DATA_BASE ++ HOMES_DATA_POST

/-- Text of the `SEARCH_HOMES_DATA` template before its single percent-s slot. -/
def SEARCH_HOMES_DATA_PRE : String := ""
/-- Text of the `SEARCH_HOMES_DATA` template after its single percent-s slot. -/
def SEARCH_HOMES_DATA_POST : String := "\ncurrent_estimates \x7b\n    __typename\n    source \x7b\n        __typename\n        type\n        name\n    \x7d\n    estimate\n    estimateHigh: estimate_high\n    estimateLow: estimate_low\n    date\n    isBestHomeValue: isbest_homevalue\n\x7d\n\x7d"
/-- `SEARCH_HOMES_DATA`: the template with `_SEARCH_HOMES_DATA_BASE` formatted into the slot. -/
def SEARCH_HOMES_DATA : String := SEARCH_HOMES_DATA_PRE ++ _SEARCH_HOMES_DATA_BASE ++ SEARCH_HOMES_DATA_POST

/-- Text of the `GENERAL_RESULTS_QUERY` template before its single percent-s slot. -/
def GENERAL_RESULTS_QUERY_PRE : String := "\x7b\n                            count\n                            total\n                            results "
/-- Text of the `GENERAL_RESULTS_QUERY` template after its single percent-s slot. -/
def GENERAL_RESULTS_QUERY_POST : String := "\n                        \x7d"
/-- `GENERAL_RESULTS_QUERY`: the template with `SEARCH_HOMES_DATA` formatted into the slot. -/
def GENERAL_RESULTS_QUERY : String := GENERAL_RESULTS_QUERY_PRE ++ SEARCH_HOMES_DATA ++ GENERAL_RESULTS_QUERY_POST

/-! ## Concrete fixtures used to witness the theorems -/

/-- A five-row table such as the external fetch could return: one mapped
column (`list_price`) and one column outside the column map. -/
def dfCA5 : DataFrame :=
  ⟨["list_price", "junk"],
   [[some "1", some "x"], [some "2", some "y"], [some "3", none],
    [some "4", none], [some "5", none]]⟩

/-- An oracle that answers `dfCA5` for California for-sale listings and
raises for everything else. -/
def fetchCA : Fetch := fun st lt _ _ _ =>
  if st = "CA" ∧ lt = "for_sale" then Except.ok dfCA5 else Except.error "boom"

/-- The task tuple for California with a row cap of 2. -/
def taskCA : Task :=
  { state := "CA", listing_types := ["for_sale"], start_date := "2024-01-01",
    end_date := "2024-06-01", max_rows := 2, output_dir := "state_exports",
    output_format := OutputFormat.csv, overwrite := false,
    columns_map := columnsMapMain }

/-- The table `process_state_cli` exports for `taskCA` under `fetchCA`. -/
def dfCAexport : DataFrame := ⟨["Listing Price"], [[some "1"], [some "2"]]⟩

/-- An oracle whose every call raises. -/
def fetchFail : Fetch := fun _ _ _ _ _ => Except.error "network down"

/-- The task tuple for Wyoming with the default listing types. -/
def taskWY : Task :=
  { state := "WY", listing_types := ["sold", "for_sale", "for_rent", "pending"],
    start_date := "2024-01-01", end_date := "2024-06-01", max_rows := 10000,
    output_dir := "state_exports", output_format := OutputFormat.csv,
    overwrite := false, columns_map := columnsMapMain }

/-- The task tuple for Texas. -/
def taskTX : Task :=
  { state := "TX", listing_types := ["sold"], start_date := "2024-01-01",
    end_date := "2024-06-01", max_rows := 10000, output_dir := "state_exports",
    output_format := OutputFormat.csv, overwrite := false,
    columns_map := columnsMapMain }

/-- A filesystem already holding an export for Texas. -/
def fsTX : FS :=
  [("state_exports/TX_properties.csv",
    FileData.table ⟨["Listing Price"], [[some "1"]]⟩)]

/-- The task tuple for Arizona. -/
def taskAZ : Task :=
  { state := "AZ", listing_types := ["sold"], start_date := "2024-01-01",
    end_date := "2024-06-01", max_rows := 10000, output_dir := "state_exports",
    output_format := OutputFormat.csv, overwrite := false,
    columns_map := columnsMapMain }

/-- A filesystem holding a zero-byte file at Arizona target path. -/
def fsAZ : FS := [("state_exports/AZ_properties.csv", FileData.raw "")]

/-- A non-empty table none of whose columns appears in the column map. -/
def dfNoMap : DataFrame :=
  ⟨["zzz", "qqq"], [[some "a", none], [none, some "b"], [some "c", some "d"]]⟩

/-- An oracle that always returns `dfNoMap`. -/
def fetchNoMap : Fetch := fun _ _ _ _ _ => Except.ok dfNoMap

/-- The task tuple for Nevada. -/
def taskNV : Task :=
  { state := "NV", listing_types := ["for_rent"], start_date := "2024-01-01",
    end_date := "2024-06-01", max_rows := 10, output_dir := "state_exports",
    output_format := OutputFormat.csv, overwrite := false,
    columns_map := columnsMapMain }

/-! ## Helper lemmas -/

/-- Recognizer for fetch-attempt events. -/
def isFetchCall : Ev → Bool
  | Ev.fetchCall _ _ => true
  | _ => false

lemma fetch_state_custom_snd (fetch : Fetch) (state : String)
    (lts : List String) (sd ed : String) (mr : Nat) :
    (fetch_state_custom fetch state lts sd ed mr).2 =
      (fetchLoop fetch state sd ed mr lts).2 := by
  unfold fetch_state_custom
  by_cases h : (fetchLoop fetch state sd ed mr lts).1.isEmpty <;> simp [h]

lemma fetchLoop_no_fileWrite (fetch : Fetch) (state sd ed : String) (mr : Nat) :
    ∀ (lts : List String) (p : String) (d : DataFrame),
      Ev.fileWrite p d ∉ (fetchLoop fetch state sd ed mr lts).2 := by
  intro lts
  induction lts with
  | nil => intro p d h; simp [fetchLoop] at h
  | cons lt rest ih =>
    intro p d h
    unfold fetchLoop at h
    cases hf : fetch state lt sd ed mr <;> simp [hf] at h <;> exact ih p d h

lemma skip_cond_false (fs : FS) (t : Task) (hns : notSkipped fs t) :
    (pathExists fs (mkFilename t.output_dir t.state t.output_format)
      && !t.overwrite) = false := by
  rcases hns with h | h <;> simp [h]

lemma fsLookup_fsWrite_self (fs : FS) (p : String) (d : FileData) :
    fsLookup (fsWrite fs p d) p = some d := by
  simp [fsLookup, fsWrite]

lemma pathExists_of_fsLookup (fs : FS) (p : String) (d : FileData)
    (h : fsLookup fs p = some d) : pathExists fs p = true := by
  unfold fsLookup at h
  rcases Option.map_eq_some'.mp h with ⟨q, hq, -⟩
  have hm := List.mem_of_find?_eq_some hq
  have hp := List.find?_some hq
  unfold pathExists
  exact List.any_eq_true.mpr ⟨q, hm, hp⟩

/-! ## The claims -/

/-- C2: if the target file already exists and overwrite is off, the task is
skipped: the filesystem is unchanged, the trace is exactly the two skip
messages, and no fetch call is made. -/
theorem existing_file_skips_fetch (fetch : Fetch) (fs : FS) (t : Task)
    (hex : pathExists fs (mkFilename t.output_dir t.state t.output_format) = true)
    (hov : t.overwrite = false) :
    (process_state_cli fetch fs t).1 = fs ∧
    (process_state_cli fetch fs t).2 =
      [Ev.logInfo ("Skipping " ++ mkFilename t.output_dir t.state t.output_format
          ++ ", already exists."),
       Ev.consoleOut ("Skipping " ++ mkFilename t.output_dir t.state t.output_format
          ++ ", already exists.")] ∧
    ∀ s lt, Ev.fetchCall s lt ∉ (process_state_cli fetch fs t).2 := by
  unfold process_state_cli
  simp [hex, hov]

/-- C2 witness: a pre-existing Texas export is skipped even when the oracle
would raise. -/
theorem existing_file_skips_fetch_witness :
    (process_state_cli fetchFail fsTX taskTX).1 = fsTX ∧
    (process_state_cli fetchFail fsTX taskTX).2 =
      [Ev.logInfo ("Skipping " ++ mkFilename taskTX.output_dir taskTX.state taskTX.output_format
          ++ ", already exists."),
       Ev.consoleOut ("Skipping " ++ mkFilename taskTX.output_dir taskTX.state taskTX.output_format
          ++ ", already exists.")] ∧
    ∀ s lt, Ev.fetchCall s lt ∉ (process_state_cli fetchFail fsTX taskTX).2 :=
  existing_file_skips_fetch fetchFail fsTX taskTX (by decide) (by decide)

/-- C9: the skip decision tests only path existence: whatever the contents
of the file at the target path — even raw empty bytes — the task is skipped
and no fetch is attempted. -/
theorem skip_tests_existence_only (fetch : Fetch) (fs : FS) (t : Task)
    (d : FileData)
    (hex : fsLookup fs (mkFilename t.output_dir t.state t.output_format) = some d)
    (hov : t.overwrite = false) :
    (process_state_cli fetch fs t).1 = fs ∧
    (process_state_cli fetch fs t).2 =
      [Ev.logInfo ("Skipping " ++ mkFilename t.output_dir t.state t.output_format
          ++ ", already exists."),
       Ev.consoleOut ("Skipping " ++ mkFilename t.output_dir t.state t.output_format
          ++ ", already exists.")] ∧
    ∀ s lt, Ev.fetchCall s lt ∉ (process_state_cli fetch fs t).2 := by
  have hex2 := pathExists_of_fsLookup fs _ d hex
  unfold process_state_cli
  simp [hex2, hov]

/-- C9 witness: a zero-byte file at the Arizona target path suffices to
skip the task. -/
theorem skip_tests_existence_only_witness :
    (process_state_cli fetchFail fsAZ taskAZ).1 = fsAZ ∧
    (process_state_cli fetchFail fsAZ taskAZ).2 =
      [Ev.logInfo ("Skipping " ++ mkFilename taskAZ.output_dir taskAZ.state taskAZ.output_format
          ++ ", already exists."),
       Ev.consoleOut ("Skipping " ++ mkFilename taskAZ.output_dir taskAZ.state taskAZ.output_format
          ++ ", already exists.")] ∧
    ∀ s lt, Ev.fetchCall s lt ∉ (process_state_cli fetchFail fsAZ taskAZ).2 :=
  skip_tests_existence_only fetchFail fsAZ taskAZ (FileData.raw "") (by decide)
    (by decide)

lemma fetchLoop_logs_errors (fetch : Fetch) (state sd ed : String)
    (mr : Nat) :
    ∀ (lts : List String), ∀ lt ∈ lts, ∀ e,
      fetch state lt sd ed mr = Except.error e →
      Ev.logError ("Error fetching " ++ state ++ " " ++ lt ++ ": " ++ e)
        ∈ (fetchLoop fetch state sd ed mr lts).2 := by
  intro lts
  induction lts with
  | nil => intro lt h; simp at h
  | cons lt0 rest ih =>
    intro lt hlt e he
    unfold fetchLoop
    rcases List.mem_cons.mp hlt with h | h
    · subst h
      rw [he]
      simp
    · cases hf : fetch state lt0 sd ed mr <;>
        · simp only [hf, List.mem_append]
          exact Or.inr (ih lt h e he)

/-- C4: the fetch primitive is attempted exactly once per listing type, in
list order, whatever the outcomes — so an exception for one listing type
never suppresses the attempts for later ones — and every raised exception
is logged. -/
theorem one_fetch_attempt_per_listing_type (fetch : Fetch)
    (state sd ed : String) (mr : Nat) (lts : List String) :
    ((fetch_state_custom fetch state lts sd ed mr).2.filter isFetchCall)
      = lts.map (fun lt => Ev.fetchCall state lt) ∧
    (∀ lt ∈ lts, ∀ e, fetch state lt sd ed mr = Except.error e →
      Ev.logError ("Error fetching " ++ state ++ " " ++ lt ++ ": " ++ e)
        ∈ (fetch_state_custom fetch state lts sd ed mr).2) := by
  rw [fetch_state_custom_snd]
  constructor
  · induction lts with
    | nil => simp [fetchLoop]
    | cons lt rest ih =>
      unfold fetchLoop
      cases hf : fetch state lt sd ed mr <;>
        simp [hf, List.filter_append, isFetchCall, ih]
  · exact fetchLoop_logs_errors fetch state sd ed mr lts

/-- C4 witness: with the always-raising oracle, the error for the first
default listing type is logged. -/
theorem one_fetch_attempt_per_listing_type_witness :
    Ev.logError ("Error fetching " ++ "WY" ++ " " ++ "sold" ++ ": "
        ++ "network down")
      ∈ (fetch_state_custom fetchFail "WY" ["sold", "for_sale", "for_rent",
          "pending"] "2024-01-01" "2024-06-01" 10000).2 :=
  (one_fetch_attempt_per_listing_type fetchFail "WY" "2024-01-01" "2024-06-01"
      10000 ["sold", "for_sale", "for_rent", "pending"]).2
    "sold" (by decide) "network down" rfl

/-- C7: the three query constants are produced by formatting: `HOMES_DATA`
and `SEARCH_HOMES_DATA` each contain `_SEARCH_HOMES_DATA_BASE` as a
substring, and `GENERAL_RESULTS_QUERY` contains `SEARCH_HOMES_DATA`. -/
theorem queries_built_by_formatting_base :
    (∃ a b, HOMES_DATA = a ++ _SEARCH_HOMES_DATA_BASE ++ b) ∧
    (∃ a b, SEARCH_HOMES_DATA = a ++ _SEARCH_HOMES_DATA_BASE ++ b) ∧
    (∃ a b, GENERAL_RESULTS_QUERY = a ++ SEARCH_HOMES_DATA ++ b) :=
  ⟨⟨HOMES_DATA_PRE, HOMES_DATA_POST, rfl⟩,
   ⟨SEARCH_HOMES_DATA_PRE, SEARCH_HOMES_DATA_POST, rfl⟩,
   ⟨GENERAL_RESULTS_QUERY_PRE, GENERAL_RESULTS_QUERY_POST, rfl⟩⟩

/-- C8: every file written by a task goes to
`output_dir/STATE_properties.csv` (or `.xlsx` for excel). -/
theorem output_path_format (fetch : Fetch) (fs : FS) (t : Task)
    (p : String) (e : DataFrame)
    (h : Ev.fileWrite p e ∈ (process_state_cli fetch fs t).2) :
    p = t.output_dir ++ "/" ++ t.state ++ "_properties." ++
      (if t.output_format = OutputFormat.excel then "xlsx" else "csv") := by
  unfold process_state_cli at h
  by_cases hc : (pathExists fs (mkFilename t.output_dir t.state t.output_format)
      && !t.overwrite) = true
  · simp [hc] at h
  · rw [Bool.not_eq_true] at hc
    simp only [hc, Bool.false_eq_true, if_false] at h
    cases hr : (fetch_state_custom fetch t.state t.listing_types t.start_date
        t.end_date t.max_rows).1 with
    | none =>
      rw [hr] at h
      rw [fetch_state_custom_snd] at h
      simp only [List.mem_append, List.mem_cons, List.not_mem_nil, or_false] at h
      rcases h with h | h | h
      · exact absurd h (fetchLoop_no_fileWrite _ _ _ _ _ _ _ _)
      · exact absurd h (by simp)
      · exact absurd h (by simp)
    | some df =>
      rw [hr] at h
      rw [fetch_state_custom_snd] at h
      simp only [List.mem_append, List.mem_cons, List.not_mem_nil, or_false] at h
      rcases h with h | h | h | h
      · exact absurd h (fetchLoop_no_fileWrite _ _ _ _ _ _ _ _)
      · rw [Ev.fileWrite.injEq] at h
        rw [h.1]
        rfl
      · exact absurd h (by simp)
      · exact absurd h (by simp)

/-- C8 witness: the California run writes to
`state_exports/CA_properties.csv`, which has the required shape. -/
theorem output_path_format_witness :
    "state_exports/CA_properties.csv" =
      taskCA.output_dir ++ "/" ++ taskCA.state ++ "_properties." ++
        (if taskCA.output_format = OutputFormat.excel then "xlsx" else "csv") :=
  output_path_format fetchCA [] taskCA "state_exports/CA_properties.csv"
    dfCAexport (by decide)

lemma rename_select_len (m : List (String × String)) (d : DataFrame)
    (cs : List String) : (renameCols m (selectCols d cs)).len = d.len := by
  simp [renameCols, selectCols, DataFrame.len]

lemma fetch_state_custom_len (fetch : Fetch) (state : String)
    (lts : List String) (sd ed : String) (mr : Nat) (df : DataFrame)
    (h : (fetch_state_custom fetch state lts sd ed mr).1 = some df) :
    df.len ≤ mr := by
  unfold fetch_state_custom at h
  by_cases he : (fetchLoop fetch state sd ed mr lts).1.isEmpty
  · simp [he] at h
  · rw [Bool.not_eq_true] at he
    simp only [he, Bool.false_eq_true, if_false, Option.some.injEq] at h
    rw [← h]
    simp [DataFrame.head, DataFrame.len, List.length_take]

/-- C3: every table a task writes has at most `max_rows` rows; and in the
California scenario (one listing type, row cap 2, fetch returning 5 rows)
the exported file holds exactly the first 2 rows, renamed per the map. -/
theorem row_cap_respected :
    (∀ (fetch : Fetch) (fs : FS) (t : Task) (p : String) (e : DataFrame),
      Ev.fileWrite p e ∈ (process_state_cli fetch fs t).2 → e.len ≤ t.max_rows) ∧
    (fsLookup (process_state_cli fetchCA [] taskCA).1
        "state_exports/CA_properties.csv" = some (FileData.table dfCAexport) ∧
      dfCAexport.len = 2 ∧
      dfCAexport = renameCols (restrictMap taskCA.columns_map ["list_price"])
        (selectCols ((concatDF [dfCA5]).head 2) ["list_price"])) := by
  constructor
  · intro fetch fs t p e h
    unfold process_state_cli at h
    by_cases hc : (pathExists fs (mkFilename t.output_dir t.state t.output_format)
        && !t.overwrite) = true
    · simp [hc] at h
    · rw [Bool.not_eq_true] at hc
      simp only [hc, Bool.false_eq_true, if_false] at h
      cases hr : (fetch_state_custom fetch t.state t.listing_types t.start_date
          t.end_date t.max_rows).1 with
      | none =>
        rw [hr] at h
        rw [fetch_state_custom_snd] at h
        simp only [List.mem_append, List.mem_cons, List.not_mem_nil, or_false] at h
        rcases h with h | h | h
        · exact absurd h (fetchLoop_no_fileWrite _ _ _ _ _ _ _ _)
        · exact absurd h (by simp)
        · exact absurd h (by simp)
      | some df =>
        rw [hr] at h
        rw [fetch_state_custom_snd] at h
        simp only [List.mem_append, List.mem_cons, List.not_mem_nil, or_false] at h
        rcases h with h | h | h | h
        · exact absurd h (fetchLoop_no_fileWrite _ _ _ _ _ _ _ _)
        · rw [Ev.fileWrite.injEq] at h
          rw [h.2, rename_select_len]
          exact fetch_state_custom_len _ _ _ _ _ _ _ hr
        · exact absurd h (by simp)
        · exact absurd h (by simp)
  · refine ⟨by decide, by decide, by decide⟩

/-- C3 witness: the California export is within the row cap. -/
theorem row_cap_respected_witness : dfCAexport.len ≤ taskCA.max_rows :=
  row_cap_respected.1 fetchCA [] taskCA "state_exports/CA_properties.csv"
    dfCAexport (by decide)

lemma fetchLoop_all_fail (fetch : Fetch) (state sd ed : String) (mr : Nat) :
    ∀ (lts : List String),
      (∀ lt ∈ lts, ∀ d, fetch state lt sd ed mr = Except.ok d → d.len = 0) →
      (fetchLoop fetch state sd ed mr lts).1 = [] := by
  intro lts
  induction lts with
  | nil => intro _; rfl
  | cons lt rest ih =>
    intro hf
    unfold fetchLoop
    cases hfe : fetch state lt sd ed mr with
    | ok d =>
      have hd : d.len = 0 := hf lt (by simp) d hfe
      simp [hfe, hd, ih (fun lt2 h2 => hf lt2 (by simp [h2]))]
    | error e =>
      simp [hfe, ih (fun lt2 h2 => hf lt2 (by simp [h2]))]

/-- C5: when every listing-type fetch for a region raises or returns an
empty table, the filesystem is unchanged, nothing is written, a
"No data" line is logged (when the task was not skipped), and the
remaining tasks produce the same final filesystem as if the region had
been absent. -/
theorem total_fetch_failure_leaves_fs_unchanged (fetch : Fetch) (fs : FS)
    (t : Task)
    (hfail : ∀ lt ∈ t.listing_types, ∀ d,
      fetch t.state lt t.start_date t.end_date t.max_rows = Except.ok d →
        d.len = 0) :
    (process_state_cli fetch fs t).1 = fs ∧
    (∀ p e, Ev.fileWrite p e ∉ (process_state_cli fetch fs t).2) ∧
    (notSkipped fs t →
      Ev.logInfo ("No data for " ++ t.state) ∈ (process_state_cli fetch fs t).2) ∧
    (∀ ts, (runTasks fetch fs (t :: ts)).1 = (runTasks fetch fs ts).1) := by
  have hnone : (fetch_state_custom fetch t.state t.listing_types t.start_date
      t.end_date t.max_rows).1 = none := by
    unfold fetch_state_custom
    simp [fetchLoop_all_fail _ _ _ _ _ _ hfail]
  by_cases hc : (pathExists fs (mkFilename t.output_dir t.state t.output_format)
      && !t.overwrite) = true
  · have hp : process_state_cli fetch fs t =
        (fs, [Ev.logInfo ("Skipping "
            ++ mkFilename t.output_dir t.state t.output_format
            ++ ", already exists."),
          Ev.consoleOut ("Skipping "
            ++ mkFilename t.output_dir t.state t.output_format
            ++ ", already exists.")]) := by
      unfold process_state_cli
      simp [hc]
    refine ⟨by rw [hp], ?_, ?_, ?_⟩
    · intro p e hm
      rw [hp] at hm
      simp at hm
    · intro hns
      rw [skip_cond_false fs t hns] at hc
      exact absurd hc (by simp)
    · intro ts
      simp [runTasks, hp]
  · have hp : process_state_cli fetch fs t =
        (fs, (fetch_state_custom fetch t.state t.listing_types t.start_date
            t.end_date t.max_rows).2 ++
          [Ev.logInfo ("No data for " ++ t.state),
           Ev.consoleOut ("No data for " ++ t.state)]) := by
      unfold process_state_cli
      rw [Bool.not_eq_true] at hc
      simp only [hc, Bool.false_eq_true, if_false, hnone]
    refine ⟨by rw [hp], ?_, ?_, ?_⟩
    · intro p e hm
      rw [hp] at hm
      rw [fetch_state_custom_snd] at hm
      simp only [List.mem_append, List.mem_cons, List.not_mem_nil, or_false] at hm
      rcases hm with hm | hm | hm
      · exact absurd hm (fetchLoop_no_fileWrite _ _ _ _ _ _ _ _)
      · exact absurd hm (by simp)
      · exact absurd hm (by simp)
    · intro _
      rw [hp]
      simp
    · intro ts
      simp [runTasks, hp]

/-- C5 witness: with an always-raising oracle, the Wyoming task leaves the
empty filesystem empty and logs "No data for WY". -/
theorem total_fetch_failure_leaves_fs_unchanged_witness :
    (process_state_cli fetchFail [] taskWY).1 = [] ∧
    Ev.logInfo ("No data for " ++ taskWY.state) ∈
      (process_state_cli fetchFail [] taskWY).2 :=
  have h := total_fetch_failure_leaves_fs_unchanged fetchFail [] taskWY
    (by intro lt _ d hd; simp [fetchFail] at hd)
  ⟨h.1, h.2.2.1 (Or.inl (by decide))⟩

lemma map_fst_filter (m : List (String × String)) (P : String → Bool) :
    (m.map Prod.fst).filter P = (m.filter (fun p => P p.1)).map Prod.fst := by
  induction m with
  | nil => rfl
  | cons q rest ih => by_cases h : P q.1 <;> simp [h, ih]

lemma lookupMap_of_nodup :
    ∀ (m : List (String × String)), (m.map Prod.fst).Nodup →
      ∀ p ∈ m, lookupMap m p.1 = some p.2 := by
  intro m
  induction m with
  | nil => intro _ p hp; simp at hp
  | cons q rest ih =>
    intro hnd p hp
    have hnd1 : q.1 ∉ rest.map Prod.fst := by
      simp only [List.map_cons, List.nodup_cons] at hnd
      exact hnd.1
    have hnd2 : (rest.map Prod.fst).Nodup := by
      simp only [List.map_cons, List.nodup_cons] at hnd
      exact hnd.2
    rcases List.mem_cons.mp hp with h | h
    · subst h
      unfold lookupMap
      rw [List.find?_cons_of_pos _ (by simp)]
      rfl
    · have hq : ¬(q.1 = p.1) := fun he =>
        hnd1 (he ▸ List.mem_map_of_mem Prod.fst h)
      unfold lookupMap
      rw [List.find?_cons_of_neg _ (by simp [hq])]
      exact ih hnd2 p h

lemma nodup_keys_restrict (m : List (String × String)) (ks : List String)
    (hnd : (m.map Prod.fst).Nodup) :
    ((restrictMap m ks).map Prod.fst).Nodup := by
  unfold restrictMap
  exact hnd.sublist ((List.filter_sublist m).map Prod.fst)

lemma mem_restrictMap (m : List (String × String)) (ks : List String)
    (p : String × String) (h1 : p ∈ m) (h2 : p.1 ∈ ks) :
    p ∈ restrictMap m ks := by
  unfold restrictMap
  rw [List.mem_filter]
  exact ⟨h1, by simp [h2]⟩

lemma rename_restrict_cols (m : List (String × String)) (P : String → Bool)
    (hnd : (m.map Prod.fst).Nodup) :
    ((m.map Prod.fst).filter P).map
        (fun c => (lookupMap (restrictMap m ((m.map Prod.fst).filter P)) c).getD c)
      = (m.filter (fun p => P p.1)).map Prod.snd := by
  rw [map_fst_filter, List.map_map]
  apply List.map_congr_left
  intro p hp
  have hpm : p ∈ m := (List.mem_filter.mp hp).1
  have hR : p ∈ restrictMap m ((m.filter (fun q => P q.1)).map Prod.fst) :=
    mem_restrictMap _ _ _ hpm (List.mem_map_of_mem Prod.fst hp)
  have hndR := nodup_keys_restrict m ((m.filter (fun q => P q.1)).map Prod.fst) hnd
  show (lookupMap _ p.1).getD p.1 = p.2
  rw [lookupMap_of_nodup _ hndR p hR]
  rfl

/-- C1: when a task reaches the export step, the file written at the target
path has exactly the columns that are both keys of the column map and
columns of the fetched table, in the map order, each renamed to its
map label. -/
theorem exported_columns_are_mapped_intersection (fetch : Fetch) (fs : FS)
    (t : Task) (df : DataFrame)
    (hnd : (t.columns_map.map Prod.fst).Nodup)
    (hns : notSkipped fs t)
    (hf : (fetch_state_custom fetch t.state t.listing_types t.start_date
        t.end_date t.max_rows).1 = some df) :
    ∃ e, fsLookup (process_state_cli fetch fs t).1
        (mkFilename t.output_dir t.state t.output_format)
          = some (FileData.table e) ∧
      e.cols = (t.columns_map.filter
        (fun p => df.cols.contains p.1)).map Prod.snd := by
  have hc := skip_cond_false fs t hns
  unfold process_state_cli
  simp only [hc, Bool.false_eq_true, if_false, hf]
  refine ⟨_, fsLookup_fsWrite_self _ _ _, ?_⟩
  show (renameCols _ (selectCols df _)).cols = _
  simp only [renameCols, selectCols]
  exact rename_restrict_cols t.columns_map (fun c => df.cols.contains c) hnd

/-- C1 witness: the California run exports exactly the renamed `list_price`
column. -/
theorem exported_columns_are_mapped_intersection_witness :
    ∃ e, fsLookup (process_state_cli fetchCA [] taskCA).1
        (mkFilename taskCA.output_dir taskCA.state taskCA.output_format)
          = some (FileData.table e) ∧
      e.cols = (taskCA.columns_map.filter
        (fun p => ((concatDF [dfCA5]).head 2).cols.contains p.1)).map Prod.snd :=
  exported_columns_are_mapped_intersection fetchCA [] taskCA
    ((concatDF [dfCA5]).head 2) (by decide) (Or.inl (by decide)) (by decide)

/-- C10: a non-empty fetched table sharing no column with the column map is
still exported: the file holds all its rows and zero columns, and a
"Saved" line is logged. -/
theorem unmapped_columns_export_zero_column_file (fetch : Fetch) (fs : FS)
    (t : Task) (df : DataFrame)
    (hns : notSkipped fs t)
    (hf : (fetch_state_custom fetch t.state t.listing_types t.start_date
        t.end_date t.max_rows).1 = some df)
    (hdisj : ∀ k ∈ t.columns_map.map Prod.fst, ¬ k ∈ df.cols) :
    ∃ e, fsLookup (process_state_cli fetch fs t).1
        (mkFilename t.output_dir t.state t.output_format)
          = some (FileData.table e) ∧
      e.cols = [] ∧ e.len = df.len ∧
      Ev.logInfo ("Saved " ++ toString df.len ++ " properties for " ++ t.state
          ++ " to " ++ mkFilename t.output_dir t.state t.output_format)
        ∈ (process_state_cli fetch fs t).2 := by
  have hc := skip_cond_false fs t hns
  have hav : (t.columns_map.map Prod.fst).filter
      (fun c => df.cols.contains c) = [] :=
    List.filter_eq_nil_iff.mpr (fun k hk => by simp [hdisj k hk])
  unfold process_state_cli
  simp only [hc, Bool.false_eq_true, if_false, hf, hav]
  refine ⟨_, fsLookup_fsWrite_self _ _ _, rfl, rename_select_len _ _ _, ?_⟩
  rw [rename_select_len]
  simp

/-- C10 witness: the Nevada run on a table with only unmapped columns
writes a zero-column file with all three rows and logs the save. -/
theorem unmapped_columns_export_zero_column_file_witness :
    ∃ e, fsLookup (process_state_cli fetchNoMap [] taskNV).1
        (mkFilename taskNV.output_dir taskNV.state taskNV.output_format)
          = some (FileData.table e) ∧
      e.cols = [] ∧ e.len = ((concatDF [dfNoMap]).head 10).len ∧
      Ev.logInfo ("Saved " ++ toString ((concatDF [dfNoMap]).head 10).len
          ++ " properties for " ++ taskNV.state ++ " to "
          ++ mkFilename taskNV.output_dir taskNV.state taskNV.output_format)
        ∈ (process_state_cli fetchNoMap [] taskNV).2 :=
  unmapped_columns_export_zero_column_file fetchNoMap [] taskNV
    ((concatDF [dfNoMap]).head 10) (Or.inl (by decide)) (by decide) (by decide)

lemma cellAt_map_self (U : List String) (g : String → Option String)
    (k : String) :
    cellAt U (U.map g) k = if k ∈ U then g k else none := by
  induction U with
  | nil => simp [cellAt]
  | cons c cs ih =>
    by_cases h : c = k
    · subst h
      simp [cellAt]
    · have h2 : ¬ k = c := fun he => h he.symm
      simp [cellAt, h, h2, ih]

lemma cellAt_eq_none_of_not_mem :
    ∀ (cols : List String) (row : List (Option String)) (k : String),
      k ∉ cols → cellAt cols row k = none := by
  intro cols
  induction cols with
  | nil => intro row k _; cases row <;> rfl
  | cons c cs ih =>
    intro row k hk
    have h1 : ¬ c = k := fun he => hk (by rw [← he]; exact List.mem_cons_self c cs)
    cases row with
    | nil => rfl
    | cons v vs =>
      simp only [cellAt, if_neg h1]
      exact ih vs k (fun hm => hk (List.mem_cons_of_mem c hm))

lemma mem_foldl_addCols_of_mem_acc :
    ∀ (ls : List (List String)) (acc : List String) (c : String),
      c ∈ acc → c ∈ ls.foldl addCols acc := by
  intro ls
  induction ls with
  | nil => intro acc c h; exact h
  | cons l rest ih =>
    intro acc c h
    rw [List.foldl_cons]
    exact ih (addCols acc l) c (by simp [addCols, h])

lemma mem_foldl_addCols_of_mem :
    ∀ (ls : List (List String)) (acc l : List String), l ∈ ls →
      ∀ c ∈ l, c ∈ ls.foldl addCols acc := by
  intro ls
  induction ls with
  | nil => intro acc l h; simp at h
  | cons l0 rest ih =>
    intro acc l hl c hc
    rw [List.foldl_cons]
    rcases List.mem_cons.mp hl with h | h
    · subst h
      apply mem_foldl_addCols_of_mem_acc
      by_cases ha : c ∈ acc
      · simp [addCols, ha]
      · simp [addCols, hc, ha]
    · exact ih (addCols acc l0) l h c hc

lemma mem_unionCols (ls : List (List String)) (l : List String) (hl : l ∈ ls)
    (c : String) (hc : c ∈ l) : c ∈ unionCols ls :=
  mem_foldl_addCols_of_mem ls [] l hl c hc

lemma rowFuns_concat (dfs : List DataFrame) :
    rowFuns (concatDF dfs) = (dfs.map rowFuns).flatten := by
  unfold rowFuns concatDF
  rw [List.map_flatten, List.map_map]
  congr 1
  apply List.map_congr_left
  intro d hd
  simp only [Function.comp]
  rw [List.map_map]
  apply List.map_congr_left
  intro r _
  funext k
  simp only [Function.comp]
  show cellAt (unionCols (dfs.map DataFrame.cols))
      (reindexRow d.cols (unionCols (dfs.map DataFrame.cols)) r) k
    = cellAt d.cols r k
  unfold reindexRow
  rw [cellAt_map_self]
  by_cases hk : k ∈ unionCols (dfs.map DataFrame.cols)
  · rw [if_pos hk]
  · rw [if_neg hk]
    have hkc : k ∉ d.cols := fun hm =>
      hk (mem_unionCols _ d.cols (List.mem_map_of_mem DataFrame.cols hd) k hm)
    exact (cellAt_eq_none_of_not_mem d.cols r k hkc).symm

/-- C6: the concatenation lists the non-empty per-listing-type tables in
listing-type order; viewed as functions from column names, its rows are
exactly the chunk rows in order; truncation keeps the first rows; and the
export step maps the truncated rows positionally, preserving their order. -/
theorem concat_and_export_preserve_row_order :
    (∀ (fetch : Fetch) (state sd ed : String) (mr : Nat) (lts : List String),
      (fetchLoop fetch state sd ed mr lts).1 =
        lts.filterMap (fun lt =>
          match fetch state lt sd ed mr with
          | Except.ok d => if d.len > 0 then some d else none
          | Except.error _ => none)) ∧
    (∀ dfs : List DataFrame, rowFuns (concatDF dfs) = (dfs.map rowFuns).flatten) ∧
    (∀ (d : DataFrame) (n : Nat), (DataFrame.head d n).rows = d.rows.take n) ∧
    (∀ (d : DataFrame) (cs : List String) (m : List (String × String)),
      (renameCols m (selectCols d cs)).rows = d.rows.map (reindexRow d.cols cs)) := by
  refine ⟨?_, rowFuns_concat, fun d n => rfl, fun d cs m => rfl⟩
  intro fetch state sd ed mr lts
  induction lts with
  | nil => rfl
  | cons lt rest ih =>
    unfold fetchLoop
    cases hf : fetch state lt sd ed mr with
    | ok d =>
      by_cases hl : d.len > 0 <;> simp [hf, hl, ih, List.filterMap_cons]
    | error e => simp [hf, ih, List.filterMap_cons]

end HomeHarvest
